import Mathlib

/-!
# Verification of the telegram bot message-routing core

Shallow embedding of the decision/approval/dispatch core of the
`telegram_bot` repository: the decision engines of
`integrated_handler.py` and `group_aware_handler.py`, the confidence
adjustment of `smart_reply_generator.py`, the outbound dispatcher of
`telegram_bot_groups.py`, the dashboard approval endpoints of
`dashboard_groups.py`, and the translation service of
`translator_openai.py`.

External LLM calls (classification, reply generation, translation,
language detection) are modelled as oracle parameters: the embedded
functions receive the parsed result the external call would have
produced (`Option` when the call can fail).  Database tables are
modelled as explicit lists threaded through the functions.  String
fields that only feed prompt text are omitted; every field inspected by
the verified control flow is kept.
-/

namespace TelegramBot

/-- Python truthiness of an optional string: `None` and `""` are falsy. -/
def strOptTruthy : Option String → Bool
  | none => false
  | some s => s ≠ ""

/-- Python truthiness of an optional integer (e.g. a nullable `chat_id`
column): `None` and `0` are falsy. -/
def intOptTruthy : Option Int → Bool
  | none => false
  | some n => n ≠ 0

/-- `x or d` on an optional string, as Python evaluates it. -/
def strOptOr (o : Option String) (d : String) : String :=
  if strOptTruthy o then o.getD d else d

/-- `OpenAITranslator.LANGUAGES` from `translator_openai.py`. -/
def LANGUAGES : List (String × String) :=
  [("hi", "Hindi"), ("en", "English"), ("de", "German"), ("pl", "Polish"),
   ("ru", "Russian"), ("es", "Spanish"), ("fr", "French"), ("it", "Italian"),
   ("pt", "Portuguese"), ("nl", "Dutch"), ("auto", "Auto-detect")]

/-- `self.LANGUAGES.get(code, code)`. -/
def languagesGet (code : String) : String :=
  match LANGUAGES.find? (fun p => p.1 == code) with
  | some p => p.2
  | none => code

/-- A classification as consumed by the decision engines and the reply
generator.  `should_respond`, `response_reason` and `bot_mentioned` are
produced only by the group classifier; for DM classifications they are
inert.  Prompt-only fields (entities, intent, ...) are omitted. -/
structure Classification where
  message_type : String
  urgency : String
  confidence : Int
  bot_mentioned : Bool := false
  should_respond : Bool := true
  response_reason : String := ""
  deriving Repr, DecidableEq

/-- The reply dict produced by `SmartReplyGenerator.generate_reply`
(after confidence adjustment), as consumed downstream. -/
structure ReplyData where
  reply : String
  confidence : Int
  action : String
  escalate_to : Option String := none
  deriving Repr, DecidableEq

/-- The parsed JSON object returned by the reply-generation model call,
before confidence adjustment. -/
structure ModelReplyOutput where
  reply : String
  confidence : Int
  action : String
  escalate_to : Option String := none
  deriving Repr, DecidableEq

/-- A final decision dict.  `escalate_to`, `warning` and `note` are only
present on some branches; absent keys are `none`. -/
structure Decision where
  action : String
  reason : String
  escalate_to : Option String := none
  confidence : Int := 0
  warning : Option String := none
  note : Option String := none
  deriving Repr, DecidableEq

namespace IntegratedMessageHandler

/-- `self.ALWAYS_QUEUE` (same list in both handler classes). -/
def ALWAYS_QUEUE : List String := ["decision_required", "customer_complaint"]

/-- `self.SAFE_AUTO_SEND` of `IntegratedMessageHandler`. -/
def SAFE_AUTO_SEND : List String := ["acknowledgment", "status_update"]

/-- `self.AUTO_SEND_THRESHOLD` (both handler classes). -/
def AUTO_SEND_THRESHOLD : Int := 85

/-- `self.QUEUE_APPROVAL_THRESHOLD` (both handler classes). -/
def QUEUE_APPROVAL_THRESHOLD : Int := 60

/-- `IntegratedMessageHandler._decide_action` from
`integrated_handler.py`: the DM decision table, rule by rule in source
order. -/
def decide_action (enable_auto_reply : Bool)
    (classification : Classification) (reply_data : ReplyData) : Decision :=
  let msg_type := classification.message_type
  let confidence := reply_data.confidence
  let suggested_action := reply_data.action
  let escalate_to := reply_data.escalate_to
  if !enable_auto_reply then
    { action := "queue_approval",
      reason := "Auto-reply is disabled - all messages require approval",
      escalate_to := escalate_to, confidence := confidence,
      note := some "Enable auto-reply in config to allow automatic sending" }
  else if msg_type ∈ ALWAYS_QUEUE then
    { action := "queue_approval",
      reason := msg_type ++ " always requires human review",
      escalate_to := escalate_to, confidence := confidence }
  else if suggested_action = "escalate" ∨ strOptTruthy escalate_to then
    { action := "escalate", reason := "AI determined escalation needed",
      escalate_to := some (strOptOr escalate_to "manager"),
      confidence := confidence }
  else if AUTO_SEND_THRESHOLD ≤ confidence ∧ msg_type ∈ SAFE_AUTO_SEND then
    { action := "auto_send",
      reason := "High confidence (" ++ toString confidence ++ "%) + safe message type",
      escalate_to := none, confidence := confidence }
  else if (90 : Int) ≤ confidence then
    { action := "auto_send",
      reason := "Very high confidence (" ++ toString confidence ++ "%)",
      escalate_to := none, confidence := confidence }
  else if QUEUE_APPROVAL_THRESHOLD ≤ confidence then
    { action := "queue_approval",
      reason := "Moderate confidence (" ++ toString confidence ++ "%), needs review",
      escalate_to := none, confidence := confidence }
  else
    { action := "queue_approval",
      reason := "Low confidence (" ++ toString confidence ++ "%), needs careful review",
      escalate_to := none, confidence := confidence,
      warning := some "AI is uncertain about this response" }

end IntegratedMessageHandler

namespace GroupAwareMessageHandler

/-- `self.ALWAYS_QUEUE` of `GroupAwareMessageHandler`. -/
def ALWAYS_QUEUE : List String := ["decision_required", "customer_complaint"]

/-- `self.SAFE_AUTO_SEND` of `GroupAwareMessageHandler` (adds
`factual_question` relative to the DM-only handler). -/
def SAFE_AUTO_SEND : List String :=
  ["acknowledgment", "status_update", "factual_question"]

/-- `GroupAwareMessageHandler._decide_group_action` from
`group_aware_handler.py`: the group decision table, rule by rule in
source order. -/
def decide_group_action (enable_auto_reply : Bool)
    (classification : Classification) (reply_data : ReplyData) : Decision :=
  let msg_type := classification.message_type
  let urgency := classification.urgency
  let confidence := reply_data.confidence
  let bot_mentioned := classification.bot_mentioned
  if !enable_auto_reply then
    { action := "queue_approval",
      reason := "Auto-reply disabled - all group messages need approval",
      confidence := confidence }
  else if msg_type ∈ ALWAYS_QUEUE then
    { action := "queue_approval",
      reason := msg_type ++ " requires human review",
      confidence := confidence }
  else if bot_mentioned ∧ (90 : Int) ≤ confidence then
    { action := "auto_send",
      reason := "Bot mentioned + very high confidence (" ++ toString confidence ++ "%)",
      confidence := confidence }
  else if msg_type = "factual_question" ∧ (90 : Int) ≤ confidence then
    { action := "auto_send",
      reason := "Factual question + high confidence (" ++ toString confidence ++ "%)",
      confidence := confidence }
  else if msg_type = "technical_problem" then
    if urgency = "critical" ∧ (85 : Int) ≤ confidence then
      { action := "auto_send", reason := "Critical problem + good confidence",
        confidence := confidence }
    else
      { action := "queue_approval", reason := "Technical problem - needs review",
        confidence := confidence }
  else
    { action := "queue_approval",
      reason := "Group message - review recommended (confidence: " ++ toString confidence ++ "%)",
      confidence := confidence }

/-- `GroupAwareMessageHandler._decide_action` from
`group_aware_handler.py`: the DM decision table used by the group-aware
handler (no escalate rule). -/
def decide_action (enable_auto_reply : Bool)
    (classification : Classification) (reply_data : ReplyData) : Decision :=
  let msg_type := classification.message_type
  let confidence := reply_data.confidence
  if !enable_auto_reply then
    { action := "queue_approval", reason := "Auto-reply disabled",
      confidence := confidence }
  else if msg_type ∈ ALWAYS_QUEUE then
    { action := "queue_approval", reason := msg_type ++ " requires review",
      confidence := confidence }
  else if IntegratedMessageHandler.AUTO_SEND_THRESHOLD ≤ confidence ∧ msg_type ∈ SAFE_AUTO_SEND then
    { action := "auto_send",
      reason := "High confidence (" ++ toString confidence ++ "%) + safe type",
      confidence := confidence }
  else if (90 : Int) ≤ confidence then
    { action := "auto_send",
      reason := "Very high confidence (" ++ toString confidence ++ "%)",
      confidence := confidence }
  else
    { action := "queue_approval",
      reason := "Moderate confidence (" ++ toString confidence ++ "%)",
      confidence := confidence }

end GroupAwareMessageHandler

/-- Truthiness of the resolved database-context dict (`bool(ctx)`).  The
code inspects the context dict only through `bool(...)` of the whole
dict and of individual values, so the dict is embedded as an association
list from key to the truthiness of the stored value. -/
def dictTruthy (d : List (String × Bool)) : Bool := !d.isEmpty

/-- Truthiness of `ctx.get(k)`: false when the key is missing or its
value is falsy. -/
def dictGet (d : List (String × Bool)) (k : String) : Bool :=
  match d.find? (fun p => p.1 == k) with
  | some p => p.2
  | none => false

namespace SmartReplyGenerator

/-- `SmartReplyGenerator._adjust_confidence` from
`smart_reply_generator.py`: deterministic downward clamps on the
model-reported confidence, followed by the final clamp into 0..100. -/
def adjust_confidence (base_confidence : Int)
    (database_context : List (String × Bool)) (msg_type : String) : Int :=
  let confidence := base_confidence
  let confidence :=
    if !dictTruthy database_context || !dictGet database_context "project" then
      min confidence 70
    else confidence
  let confidence :=
    if msg_type = "factual_question" then
      if !dictTruthy database_context then min confidence 50 else confidence
    else confidence
  let confidence :=
    if msg_type = "scheduling" then
      if !dictGet database_context "schedule" then min confidence 60 else confidence
    else confidence
  let confidence :=
    if msg_type = "decision_required" ∨ msg_type = "customer_complaint" then
      min confidence 75
    else confidence
  max 0 (min 100 confidence)

/-- `SmartReplyGenerator.generate_reply` from `smart_reply_generator.py`
with the external model call abstracted: `some` carries the parsed JSON
of a successful call (whose confidence is then adjusted), `none` is the
exception path returning the safe fallback draft. -/
def generate_reply (classification : Classification)
    (database_context : List (String × Bool))
    (model_output : Option ModelReplyOutput) : ReplyData :=
  match model_output with
  | some result =>
      { reply := result.reply,
        confidence := adjust_confidence result.confidence database_context
          classification.message_type,
        action := result.action,
        escalate_to := result.escalate_to }
  | none =>
      { reply := "I need to check on this. Let me get back to you.",
        confidence := 0, action := "queue_approval", escalate_to := none }

end SmartReplyGenerator

/-- Which pipeline components ran while processing one message
(explicit-state rendering of the calls performed by the handler). -/
structure PipelineTrace where
  replyGeneratorCalls : Nat
  decideCalls : Nat
  deriving Repr, DecidableEq

/-- The result dict compiled by `_process_dm` / `_process_group_message`
(fields consumed downstream).  `reply` is `none` exactly when the
pipeline skipped before reply generation. -/
structure ProcessResult where
  message_source : String
  classification : Classification
  reply : Option ReplyData
  final_decision : Decision
  should_respond : Bool
  deriving Repr, DecidableEq

namespace GroupAwareMessageHandler

/-- `GroupAwareMessageHandler._process_group_message` from
`group_aware_handler.py`: classification is the (oracle) output of the
group classifier; when `should_respond` is false the function returns
the terminal skip result without touching the reply generator or the
decision table, otherwise it generates the reply and decides. -/
def process_group_message (enable_auto_reply : Bool)
    (classification : Classification)
    (database_context : List (String × Bool))
    (model_output : Option ModelReplyOutput) : ProcessResult × PipelineTrace :=
  if !classification.should_respond then
    ({ message_source := "group", classification := classification, reply := none,
       final_decision := { action := "skip", reason := classification.response_reason },
       should_respond := false },
     { replyGeneratorCalls := 0, decideCalls := 0 })
  else
    let reply_data := SmartReplyGenerator.generate_reply classification
      database_context model_output
    let final_action := decide_group_action enable_auto_reply classification reply_data
    ({ message_source := "group", classification := classification,
       reply := some reply_data, final_decision := final_action,
       should_respond := true },
     { replyGeneratorCalls := 1, decideCalls := 1 })

/-- `GroupAwareMessageHandler._process_dm` from
`group_aware_handler.py`: DMs always generate a reply and decide. -/
def process_dm (enable_auto_reply : Bool) (classification : Classification)
    (database_context : List (String × Bool))
    (model_output : Option ModelReplyOutput) : ProcessResult :=
  let reply_data := SmartReplyGenerator.generate_reply classification
    database_context model_output
  let final_action := decide_action enable_auto_reply classification reply_data
  { message_source := "dm", classification := classification,
    reply := some reply_data, final_decision := final_action,
    should_respond := true }

end GroupAwareMessageHandler

namespace GroupMessageClassifier

/-- The deterministic fallback returned by
`GroupMessageClassifier.classify_group_message` when the external call
raises.  The fallback dict carries no `bot_mentioned` key;
`classification.get("bot_mentioned", False)` downstream therefore reads
false. -/
def fallback_classification : Classification :=
  { message_type := "unknown", urgency := "medium", confidence := 0,
    bot_mentioned := false, should_respond := false,
    response_reason := "Classification failed - skipping response" }

end GroupMessageClassifier

/-- `s or d` on strings, as Python evaluates it (empty string falsy). -/
def strOr (s d : String) : String := if s ≠ "" then s else d

/-- Python `str.strip()`: drop whitespace from both ends (written over
the character list so that it evaluates by kernel reduction). -/
def pyStrip (s : String) : String :=
  ⟨((s.data.dropWhile Char.isWhitespace).reverse.dropWhile Char.isWhitespace).reverse⟩

/-- The two sending identities of the dual-client bot: the personal
(human) account `user_client` and the `bot_client`. -/
inductive SenderIdentity where
  | humanAccount
  | botAccount
  deriving Repr, DecidableEq

/-- One row of the `outgoing_messages` queue table, with the fields read
back by `get_next_outgoing` (the auto-increment id and `created_at` are
represented by list position in the FIFO queue). -/
structure OutgoingJob where
  user_id : Int
  message : String
  is_group : Bool
  chat_id : Option Int
  topic_id : Option Int
  target_language : Option String
  sender_type : String
  message_category : String
  deriving Repr, DecidableEq

/-- One transmission performed through a telethon client
(`send_message` on either identity). -/
structure SentMessage where
  identity : SenderIdentity
  target : Int
  text : String
  reply_to : Option Int
  deriving Repr, DecidableEq

/-- One row of `bot_translation_messages`, written by
`track_bot_translation_message`. -/
structure BotTranslationMarker where
  message_id : Int
  chat_id : Option Int
  topic_id : Int
  original_message_text : String
  language : String
  deriving Repr, DecidableEq

/-- `TRANSLATION_SETTINGS` plus `YOUR_LANGUAGE` from `config.py`, as
read by `telegram_bot_groups.py`. -/
structure TranslationSettings where
  enabled : Bool
  use_bot_for_translations : Bool
  group_languages : List String
  your_language : String
  deriving Repr, DecidableEq

/-- The chat-id reformatting in the bot branch of `outgoing_worker`:
a positive id `c` becomes `int("-100" + str(c))`, i.e. the decimal
digits of `c` appended to `-100`. -/
def formatGroupChatId (c : Int) : Int :=
  if 0 < c then -(100 * (10 : Int) ^ (toString c).length + c) else c

/-- The per-job body of the `outgoing_worker` loop from
`telegram_bot_groups.py` (transmissions succeed; `translate` is the
external translation oracle `(text, target_lang, source_lang)`, and
`bot_msg_id` the platform id assigned to a bot transmission).  Returns
the transmissions performed, the jobs enqueued during dispatch (the
re-broadcast of an approved group reply), and the translation markers
written. -/
def dispatch_job (cfg : TranslationSettings)
    (translate : String → String → String → String)
    (bot_msg_id : Int) (job : OutgoingJob) :
    List SentMessage × List OutgoingJob × List BotTranslationMarker :=
  if job.sender_type = "bot" ∧ job.message_category = "translation" then
    if job.is_group ∧ intOptTruthy job.chat_id then
      let formatted_chat_id := formatGroupChatId (job.chat_id.getD 0)
      let sent : SentMessage :=
        { identity := SenderIdentity.botAccount, target := formatted_chat_id,
          text := job.message,
          reply_to := if intOptTruthy job.topic_id then job.topic_id else none }
      let marker : BotTranslationMarker :=
        { message_id := bot_msg_id, chat_id := job.chat_id,
          topic_id := job.topic_id.getD 0,
          original_message_text := job.message,
          language := strOptOr job.target_language "unknown" }
      ([sent], [], [marker])
    else
      ([], [], [])
  else
    if job.is_group ∧ intOptTruthy job.chat_id then
      let sent : SentMessage :=
        { identity := SenderIdentity.humanAccount, target := job.chat_id.getD 0,
          text := job.message,
          reply_to := if intOptTruthy job.topic_id then job.topic_id else none }
      let rebroadcast : List OutgoingJob :=
        if job.message_category = "response" ∧ cfg.enabled ∧ cfg.use_bot_for_translations then
          let source_lang_code :=
            strOptOr job.target_language (strOr cfg.your_language "en")
          (cfg.group_languages.filter (fun t => t ≠ source_lang_code)).map
            (fun t =>
              { user_id := job.user_id,
                message := languagesGet t ++ ":\n" ++ translate job.message t source_lang_code,
                is_group := true, chat_id := job.chat_id, topic_id := job.topic_id,
                target_language := some t, sender_type := "bot",
                message_category := "translation" })
        else []
      ([sent], rebroadcast, [])
    else
      ([{ identity := SenderIdentity.humanAccount, target := job.user_id,
          text := job.message, reply_to := none }], [], [])

/-- State after one pass of the `outgoing_worker` loop. -/
structure WorkerStepResult where
  queue : List OutgoingJob
  sends : List SentMessage
  markers : List BotTranslationMarker
  deriving Repr, DecidableEq

/-- One pass of the `outgoing_worker` loop: take the oldest queue row if
any, dispatch it, append any jobs enqueued during dispatch, and delete
the dispatched row (`delete_outgoing` runs on success and on failure
alike). -/
def outgoing_worker_step (cfg : TranslationSettings)
    (translate : String → String → String → String)
    (bot_msg_id : Int) (queue : List OutgoingJob) : WorkerStepResult :=
  match queue with
  | [] => { queue := [], sends := [], markers := [] }
  | job :: rest =>
    let out := dispatch_job cfg translate bot_msg_id job
    { queue := rest ++ out.2.1, sends := out.1, markers := out.2.2 }

/-- One row of the `pending_approvals` table. -/
structure PendingApproval where
  token : String
  user_id : Int
  sender_name : String
  incoming_msg : String
  ai_suggestion : String
  language : String
  is_group : Bool
  chat_id : Option Int
  topic_id : Option Int
  chat_title : String
  topic_name : String
  source_language : Option String
  translated_message : String
  original_message : String
  deriving Repr, DecidableEq

/-- One row of the append-only `message_corrections` table. -/
structure Correction where
  user_id : Int
  user_name : String
  incoming_message : String
  ai_suggestion : String
  your_edit : String
  language : String
  deriving Repr, DecidableEq

/-- The shared relational store as seen by the dashboard endpoints of
`dashboard_groups.py`. -/
structure DashboardState where
  pending : List PendingApproval
  outgoing : List OutgoingJob
  corrections : List Correction
  deriving Repr, DecidableEq

namespace Dashboard

/-- `get_pending_approval` from `dashboard_groups.py`: lookup by token
(the token column is the primary key). -/
def get_pending_approval (st : DashboardState) (token : String) :
    Option PendingApproval :=
  st.pending.find? (fun a => a.token == token)

/-- `delete_pending_approval`: SQL delete of the rows with this token. -/
def delete_pending_approval (st : DashboardState) (token : String) :
    DashboardState :=
  { st with pending := st.pending.filter (fun a => a.token != token) }

/-- `queue_telegram_message` from `dashboard_groups.py`: every dashboard
send is inserted with `sender_type=user` and `message_category=response`. -/
def queue_telegram_message (st : DashboardState) (user_id : Int)
    (message : String) (is_group : Bool) (chat_id topic_id : Option Int)
    (target_language : Option String) : DashboardState :=
  { st with outgoing := st.outgoing ++
      [{ user_id := user_id, message := message, is_group := is_group,
         chat_id := chat_id, topic_id := topic_id,
         target_language := target_language,
         sender_type := "user", message_category := "response" }] }

/-- `store_correction`: append one row to `message_corrections`. -/
def store_correction (st : DashboardState) (user_id : Int)
    (user_name incoming_msg ai_suggestion your_edit language : String) :
    DashboardState :=
  { st with corrections := st.corrections ++
      [{ user_id := user_id, user_name := user_name,
         incoming_message := incoming_msg, ai_suggestion := ai_suggestion,
         your_edit := your_edit, language := language }] }

/-- `data.get("source_language", "en")`, where the read side already
replaced a falsy column value by en (`result[11] or "en"`). -/
def approval_target_lang (d : PendingApproval) : String :=
  strOptOr d.source_language "en"

/-- `send_message` (POST /api/send/token) from `dashboard_groups.py`:
approve.  `store_interaction` writes no row (its body only opens a
connection and commits), so it has no state effect. -/
def send_message (st : DashboardState) (token : String) :
    DashboardState × Bool :=
  match get_pending_approval st token with
  | none => (st, false)
  | some d =>
    let target_lang := approval_target_lang d
    let st1 :=
      if d.is_group then
        queue_telegram_message st d.user_id d.ai_suggestion true
          d.chat_id d.topic_id (some target_lang)
      else
        queue_telegram_message st d.user_id d.ai_suggestion false
          none none (some target_lang)
    (delete_pending_approval st1 token, true)

/-- `edit_message` (POST /api/edit/token) from `dashboard_groups.py`:
edit-and-approve; the stripped edited text is queued and one Correction
row pairing the AI suggestion with the edit is appended. -/
def edit_message (st : DashboardState) (token : String)
    (message : String) : DashboardState × Bool :=
  match get_pending_approval st token with
  | none => (st, false)
  | some d =>
    let edited_message := pyStrip message
    if edited_message = "" then (st, false)
    else
      let st1 :=
        if d.is_group then
          queue_telegram_message st d.user_id edited_message true
            d.chat_id d.topic_id (some (approval_target_lang d))
        else
          queue_telegram_message st d.user_id edited_message false
            none none (some (approval_target_lang d))
      let st2 := store_correction st1 d.user_id d.sender_name d.incoming_msg
        d.ai_suggestion edited_message d.language
      (delete_pending_approval st2 token, true)

/-- `skip_message` (POST /api/skip/token) from `dashboard_groups.py`:
delete the approval, write nothing. -/
def skip_message (st : DashboardState) (token : String) :
    DashboardState × Bool :=
  match get_pending_approval st token with
  | none => (st, false)
  | some _ => (delete_pending_approval st token, true)

end Dashboard

/-- The configuration read by `telegram_bot_groups.py`:
`ENABLE_AUTO_REPLY` plus the translation settings. -/
structure HandlerConfig where
  enable_auto_reply : Bool
  translation : TranslationSettings
  deriving Repr, DecidableEq

/-- Metadata of one inbound chat event, as extracted by
`handle_incoming_message` before the pipeline runs. -/
structure IncomingInfo where
  user_id : Int
  sender_name : String
  text : String
  is_group : Bool
  chat_id : Option Int
  topic_id : Option Int
  chat_title : String
  topic_name : String
  deriving Repr, DecidableEq

/-- The observable side effects of one `handle_incoming_message` run:
rows inserted into `outgoing_messages` (via `queue_message`), replies
transmitted directly through `user_client.send_message`, pending
approvals inserted, and review notices sent to the operator. -/
structure HandlerEffects where
  queued : List OutgoingJob
  replySends : List SentMessage
  approvals : List PendingApproval
  operatorNotices : Nat
  deriving Repr, DecidableEq

/-- Steps 1 to 4 of `handle_incoming_message` from
`telegram_bot_groups.py`, for a message from a third party (the service
message filter, the bot-echo filter and the skip of the operator's own
messages run before this slice).  Language detection produced
`src_code`/`src_name`; `translate` is the translation oracle;
`classification` and `model_output` are the classifier and reply-model
oracles; `token` is the generated approval token. -/
def handle_incoming_message_effects (cfg : HandlerConfig)
    (translate : String → String → String → String)
    (info : IncomingInfo) (src_code src_name : String)
    (classification : Classification)
    (database_context : List (String × Bool))
    (model_output : Option ModelReplyOutput) (token : String) :
    HandlerEffects :=
  let translated_for_you :=
    if src_code ≠ cfg.translation.your_language then
      translate info.text cfg.translation.your_language src_code
    else info.text
  let broadcast : List OutgoingJob :=
    if info.is_group ∧ cfg.translation.enabled ∧ cfg.translation.use_bot_for_translations then
      (cfg.translation.group_languages.filter (fun t => t ≠ src_code)).map
        (fun t =>
          { user_id := info.user_id,
            message := languagesGet t ++ ":\n" ++ translate info.text t src_code,
            is_group := true, chat_id := info.chat_id, topic_id := info.topic_id,
            target_language := some t, sender_type := "bot",
            message_category := "translation" })
    else []
  let result :=
    if info.is_group then
      (GroupAwareMessageHandler.process_group_message cfg.enable_auto_reply
        classification database_context model_output).1
    else
      GroupAwareMessageHandler.process_dm cfg.enable_auto_reply
        classification database_context model_output
  if info.is_group ∧ result.should_respond = false then
    { queued := broadcast, replySends := [], approvals := [], operatorNotices := 0 }
  else
    let ai_suggestion := (result.reply.map (fun r => r.reply)).getD "No response generated"
    let decision := result.final_decision
    if decision.action = "auto_send" ∧ cfg.enable_auto_reply then
      let response :=
        if src_code ≠ cfg.translation.your_language then
          translate ai_suggestion src_code cfg.translation.your_language
        else ai_suggestion
      let sent : SentMessage :=
        if info.is_group then
          { identity := SenderIdentity.humanAccount, target := info.chat_id.getD 0,
            text := response,
            reply_to := if intOptTruthy info.topic_id then info.topic_id else none }
        else
          { identity := SenderIdentity.humanAccount, target := info.user_id,
            text := response, reply_to := none }
      { queued := broadcast, replySends := [sent], approvals := [],
        operatorNotices := 0 }
    else if decision.action ≠ "skip" then
      { queued := broadcast, replySends := [],
        approvals := [
          { token := token, user_id := info.user_id,
            sender_name := info.sender_name, incoming_msg := translated_for_you,
            ai_suggestion := ai_suggestion, language := src_name,
            is_group := info.is_group, chat_id := info.chat_id,
            topic_id := info.topic_id, chat_title := info.chat_title,
            topic_name := info.topic_name, source_language := some src_code,
            translated_message := translated_for_you,
            original_message := info.text }],
        operatorNotices := 1 }
    else
      { queued := broadcast, replySends := [], approvals := [],
        operatorNotices := 0 }

/-- One row of the `translation_cache` table; the list is kept most
recent first, matching the `ORDER BY created_at DESC LIMIT 1` read. -/
structure TranslationCacheEntry where
  original_text : String
  source_lang : String
  target_lang : String
  translated_text : String
  deriving Repr, DecidableEq

/-- The translation result dict of `OpenAITranslator.translate`. -/
structure TranslationResult where
  translated_text : String
  source_lang : String
  target_lang : String
  original_text : String
  from_cache : Bool
  deriving Repr, DecidableEq

/-- How a `translate` invocation interacted with the outside world:
cache reads performed and external chat-completion calls made
(language detection plus translation). -/
structure TranslateTrace where
  cacheLookups : Nat
  externalCalls : Nat
  deriving Repr, DecidableEq

namespace OpenAITranslator

/-- `_get_from_cache` from `translator_openai.py`: most recent entry for
`(original_text, target_lang)`, independent of the source language. -/
def get_from_cache (cache : List TranslationCacheEntry)
    (text target_lang : String) : Option TranslationCacheEntry :=
  cache.find? (fun e => e.original_text == text && e.target_lang == target_lang)

/-- The post-processing applied to the model translation output:
strip whitespace, then remove one pair of surrounding double quotes
(`translated_text[1:-1]`). -/
def stripModelQuotes (s : String) : String :=
  let t := pyStrip s
  if t.data.head? = some (Char.ofNat 34) ∧ t.data.getLast? = some (Char.ofNat 34) then
    String.mk ((t.data.drop 1).dropLast)
  else t

/-- `OpenAITranslator.translate` from `translator_openai.py` (success
path of the external calls): empty-text short circuit, then cache
lookup, then detection when the source is auto, then the same-language
identity short circuit, then the external translation call and the
cache write.  `detect_code` and `model_translate` are the external
oracles. -/
def translate (cache : List TranslationCacheEntry)
    (detect_code : String → String)
    (model_translate : String → String → String → String)
    (text target_lang source_lang : String) :
    TranslationResult × TranslateTrace × List TranslationCacheEntry :=
  if pyStrip text = "" then
    ({ translated_text := text, source_lang := source_lang,
       target_lang := target_lang, original_text := text, from_cache := false },
     { cacheLookups := 0, externalCalls := 0 }, cache)
  else
    match get_from_cache cache text target_lang with
    | some e =>
      ({ translated_text := e.translated_text, source_lang := e.source_lang,
         target_lang := target_lang, original_text := text, from_cache := true },
       { cacheLookups := 1, externalCalls := 0 }, cache)
    | none =>
      let detected := if source_lang = "auto" then detect_code text else source_lang
      let detect_calls : Nat := if source_lang = "auto" then 1 else 0
      if detected = target_lang then
        ({ translated_text := text, source_lang := detected,
           target_lang := target_lang, original_text := text, from_cache := false },
         { cacheLookups := 1, externalCalls := detect_calls }, cache)
      else
        let translated_text := stripModelQuotes (model_translate text target_lang detected)
        ({ translated_text := translated_text, source_lang := detected,
           target_lang := target_lang, original_text := text, from_cache := false },
         { cacheLookups := 1, externalCalls := detect_calls + 1 },
         { original_text := text, source_lang := detected,
           target_lang := target_lang, translated_text := translated_text } :: cache)

end OpenAITranslator

/-- A concrete pending approval used to exercise the approval
lifecycle. -/
def sampleApproval : PendingApproval :=
  { token := "tok1", user_id := 42, sender_name := "Anna",
    incoming_msg := "when do you arrive?", ai_suggestion := "Around 9am.",
    language := "English", is_group := false, chat_id := none,
    topic_id := none, chat_title := "", topic_name := "",
    source_language := some "en",
    translated_message := "when do you arrive?",
    original_message := "when do you arrive?" }

/-- A concrete dashboard store holding exactly `sampleApproval`. -/
def sampleDashboardState : DashboardState :=
  { pending := [sampleApproval], outgoing := [], corrections := [] }

/-- The DM auto-send scenario of the spec: auto-reply on,
message_type=acknowledgment, adjusted reply confidence 92. -/
def autoSendScenarioResult : ProcessResult :=
  GroupAwareMessageHandler.process_dm true
    { message_type := "acknowledgment", urgency := "low", confidence := 90 }
    [("project", true)]
    (some { reply := "Thanks, noted!", confidence := 92, action := "auto_send" })

/-- The handler side effects in the DM auto-send scenario. -/
def autoSendScenarioEffects : HandlerEffects :=
  handle_incoming_message_effects
    { enable_auto_reply := true,
      translation :=
        { enabled := true, use_bot_for_translations := true,
          group_languages := ["en", "de"], your_language := "en" } }
    (fun t _ _ => t)
    { user_id := 42, sender_name := "Anna", text := "ok thanks",
      is_group := false, chat_id := none, topic_id := none,
      chat_title := "", topic_name := "" }
    "en" "English"
    { message_type := "acknowledgment", urgency := "low", confidence := 90 }
    [("project", true)]
    (some { reply := "Thanks, noted!", confidence := 92, action := "auto_send" })
    "tokC2"

end TelegramBot


namespace TelegramBot

/-- C3: with `auto_reply_enabled = false`, both decision tables return
`queue_approval` for every classification and every reply draft, and the
returned decision is exactly the safe-mode branch of each table (so no
later rule is evaluated). -/
theorem claim_C3_safe_mode_queues_everything :
    ∀ (c : Classification) (r : ReplyData),
      IntegratedMessageHandler.decide_action false c r =
        { action := "queue_approval",
          reason := "Auto-reply is disabled - all messages require approval",
          escalate_to := r.escalate_to, confidence := r.confidence,
          note := some "Enable auto-reply in config to allow automatic sending" } ∧
      GroupAwareMessageHandler.decide_group_action false c r =
        { action := "queue_approval",
          reason := "Auto-reply disabled - all group messages need approval",
          confidence := r.confidence } := by
  intro c r
  constructor <;> rfl

/-- C5: with auto-reply enabled, `decision_required` and
`customer_complaint` yield `queue_approval` in both the DM table and the
group table, for every confidence value. -/
theorem claim_C5_always_queue_types (c : Classification) (r : ReplyData)
    (h : c.message_type = "decision_required" ∨ c.message_type = "customer_complaint") :
    (IntegratedMessageHandler.decide_action true c r).action = "queue_approval" ∧
    (GroupAwareMessageHandler.decide_group_action true c r).action = "queue_approval" := by
  unfold IntegratedMessageHandler.decide_action GroupAwareMessageHandler.decide_group_action
  rcases h with h | h <;> rw [h] <;> simp [IntegratedMessageHandler.ALWAYS_QUEUE,
    GroupAwareMessageHandler.ALWAYS_QUEUE]

/-- Witness for C5 at a concrete input: `customer_complaint` at reply
confidence 99 still queues in both tables. -/
theorem claim_C5_witness :
    (IntegratedMessageHandler.decide_action true
      { message_type := "customer_complaint", urgency := "high", confidence := 99 }
      { reply := "r", confidence := 99, action := "auto_send" }).action = "queue_approval" ∧
    (GroupAwareMessageHandler.decide_group_action true
      { message_type := "customer_complaint", urgency := "high", confidence := 99 }
      { reply := "r", confidence := 99, action := "auto_send" }).action = "queue_approval" :=
  claim_C5_always_queue_types
    { message_type := "customer_complaint", urgency := "high", confidence := 99 }
    { reply := "r", confidence := 99, action := "auto_send" }
    (Or.inr rfl)

/-- C6: with auto-reply enabled, the group table returns `auto_send`
exactly when the message type is not an always-queue type and one of the
three auto-send rules matches (bot mentioned with confidence at least
90; factual question with confidence at least 90; critical technical
problem with confidence at least 85); every other input gets
`queue_approval`, and the table never produces any third action. -/
theorem claim_C6_group_auto_send_characterization
    (c : Classification) (r : ReplyData) :
    ((GroupAwareMessageHandler.decide_group_action true c r).action = "auto_send" ∨
     (GroupAwareMessageHandler.decide_group_action true c r).action = "queue_approval") ∧
    ((GroupAwareMessageHandler.decide_group_action true c r).action = "auto_send" ↔
      (c.message_type ∉ GroupAwareMessageHandler.ALWAYS_QUEUE ∧
        ((c.bot_mentioned = true ∧ (90 : Int) ≤ r.confidence) ∨
         (c.message_type = "factual_question" ∧ (90 : Int) ≤ r.confidence) ∨
         (c.message_type = "technical_problem" ∧ c.urgency = "critical" ∧
           (85 : Int) ≤ r.confidence)))) := by
  by_cases hA : c.message_type ∈ GroupAwareMessageHandler.ALWAYS_QUEUE <;>
    cases hbm : c.bot_mentioned <;>
    by_cases h90 : (90 : Int) ≤ r.confidence <;>
    by_cases h85 : (85 : Int) ≤ r.confidence <;>
    by_cases hF : c.message_type = "factual_question" <;>
    by_cases hT : c.message_type = "technical_problem" <;>
    by_cases hU : c.urgency = "critical" <;>
    (try simp_all [GroupAwareMessageHandler.decide_group_action,
      GroupAwareMessageHandler.ALWAYS_QUEUE]) <;>
    (try split_ifs) <;> simp_all

/-- C4: for every successful reply generation the returned confidence
respects the deterministic ceilings, whatever confidence the model
reported: at most 70 without a truthy project-level context; at most 50
for a factual question with an empty resolved context; at most 60 for
scheduling with no truthy schedule entries; at most 75 for
decision_required and customer_complaint. -/
theorem claim_C4_confidence_ceilings (c : Classification)
    (ctx : List (String × Bool)) (m : ModelReplyOutput) :
    (dictGet ctx "project" = false →
      (SmartReplyGenerator.generate_reply c ctx (some m)).confidence ≤ 70) ∧
    (c.message_type = "factual_question" → dictTruthy ctx = false →
      (SmartReplyGenerator.generate_reply c ctx (some m)).confidence ≤ 50) ∧
    (c.message_type = "scheduling" → dictGet ctx "schedule" = false →
      (SmartReplyGenerator.generate_reply c ctx (some m)).confidence ≤ 60) ∧
    ((c.message_type = "decision_required" ∨ c.message_type = "customer_complaint") →
      (SmartReplyGenerator.generate_reply c ctx (some m)).confidence ≤ 75) := by
  refine ⟨?_, ?_, ?_, ?_⟩
  · intro h
    simp [SmartReplyGenerator.generate_reply, SmartReplyGenerator.adjust_confidence, h]
    split_ifs <;> omega
  · intro h1 h2
    simp [SmartReplyGenerator.generate_reply, SmartReplyGenerator.adjust_confidence, h1, h2]
  · intro h1 h2
    simp [SmartReplyGenerator.generate_reply, SmartReplyGenerator.adjust_confidence, h1, h2]
  · intro h
    rcases h with h | h <;>
      simp [SmartReplyGenerator.generate_reply, SmartReplyGenerator.adjust_confidence, h]

/-- Witness for C4 at a concrete input: a factual question with an empty
resolved context and a model-reported confidence of 95 comes back with
confidence at most 50 (and at most 70). -/
theorem claim_C4_witness :
    (dictGet [] "project" = false →
      (SmartReplyGenerator.generate_reply
        { message_type := "factual_question", urgency := "medium", confidence := 90 }
        [] (some { reply := "r", confidence := 95, action := "auto_send" })).confidence ≤ 70) ∧
    (("factual_question" : String) = "factual_question" → dictTruthy [] = false →
      (SmartReplyGenerator.generate_reply
        { message_type := "factual_question", urgency := "medium", confidence := 90 }
        [] (some { reply := "r", confidence := 95, action := "auto_send" })).confidence ≤ 50) :=
  ⟨(claim_C4_confidence_ceilings
      { message_type := "factual_question", urgency := "medium", confidence := 90 }
      [] { reply := "r", confidence := 95, action := "auto_send" }).1,
   fun _ => (claim_C4_confidence_ceilings
      { message_type := "factual_question", urgency := "medium", confidence := 90 }
      [] { reply := "r", confidence := 95, action := "auto_send" }).2.1 rfl⟩

/-- C7: for every group classification with `should_respond = false` the
pipeline returns the terminal skip decision and performs zero reply
generator calls and zero decision calls; the failure fallback
classification is such a classification. -/
theorem claim_C7_skip_without_pipeline (enable : Bool) (c : Classification)
    (ctx : List (String × Bool)) (m : Option ModelReplyOutput)
    (h : c.should_respond = false) :
    (GroupAwareMessageHandler.process_group_message enable c ctx m).1.final_decision.action
        = "skip" ∧
    (GroupAwareMessageHandler.process_group_message enable c ctx m).2.replyGeneratorCalls = 0 ∧
    (GroupAwareMessageHandler.process_group_message enable c ctx m).2.decideCalls = 0 ∧
    GroupMessageClassifier.fallback_classification.should_respond = false := by
  simp [GroupAwareMessageHandler.process_group_message, h,
    GroupMessageClassifier.fallback_classification]

/-- Witness for C7 at a concrete input: processing the fallback
classification itself (auto-reply on, empty context, failed reply call)
terminates in skip with no pipeline calls. -/
theorem claim_C7_witness :
    (GroupAwareMessageHandler.process_group_message true
        GroupMessageClassifier.fallback_classification [] none).1.final_decision.action
        = "skip" ∧
    (GroupAwareMessageHandler.process_group_message true
        GroupMessageClassifier.fallback_classification [] none).2.replyGeneratorCalls = 0 ∧
    (GroupAwareMessageHandler.process_group_message true
        GroupMessageClassifier.fallback_classification [] none).2.decideCalls = 0 ∧
    GroupMessageClassifier.fallback_classification.should_respond = false :=
  claim_C7_skip_without_pipeline true GroupMessageClassifier.fallback_classification [] none rfl


/-- C1 (counterexample): a dequeued job with category=translation and
sender=human identity is transmitted by the dispatcher under the human
identity — it is silently rerouted, not refused. -/
theorem claim_C1_counterexample :
    ({ user_id := 7, message := "Polish:\nczesc", is_group := true,
       chat_id := some 5, topic_id := none, target_language := some "pl",
       sender_type := "user", message_category := "translation" } : OutgoingJob).message_category
      = "translation" ∧
    (dispatch_job
      { enabled := true, use_bot_for_translations := true,
        group_languages := ["en", "pl"], your_language := "en" }
      (fun t _ _ => t) 1
      { user_id := 7, message := "Polish:\nczesc", is_group := true,
        chat_id := some 5, topic_id := none, target_language := some "pl",
        sender_type := "user", message_category := "translation" }).1 =
      [{ identity := SenderIdentity.humanAccount, target := 5,
         text := "Polish:\nczesc", reply_to := none }] := by
  constructor <;> rfl

/-- C1 (amended): for every dequeued job, the broadcast (bot) identity
transmits only jobs with sender=bot and category=translation — so a
response or notification job is never sent under the broadcast identity —
but a translation-category job whose sender is not the bot identity is
not refused: it is transmitted (exactly one send) under the human
identity. -/
theorem claim_C1_amended_routing (cfg : TranslationSettings)
    (translate : String → String → String → String) (bot_msg_id : Int)
    (job : OutgoingJob) :
    (∀ s ∈ (dispatch_job cfg translate bot_msg_id job).1,
        s.identity = SenderIdentity.botAccount →
          job.sender_type = "bot" ∧ job.message_category = "translation") ∧
    (job.message_category = "translation" → job.sender_type ≠ "bot" →
      (dispatch_job cfg translate bot_msg_id job).1.length = 1 ∧
        ∀ s ∈ (dispatch_job cfg translate bot_msg_id job).1,
          s.identity = SenderIdentity.humanAccount) := by
  unfold dispatch_job
  split_ifs with h1 h2 h3 <;> simp_all

/-- Witness for the amended C1 at a concrete input: a (human, translation)
group job is transmitted as exactly one human-identity send. -/
theorem claim_C1_witness :
    (dispatch_job
      { enabled := false, use_bot_for_translations := false,
        group_languages := [], your_language := "en" }
      (fun t _ _ => t) 2
      { user_id := 9, message := "hola", is_group := true,
        chat_id := some 11, topic_id := none, target_language := some "es",
        sender_type := "user", message_category := "translation" }).1.length = 1 ∧
    ∀ s ∈ (dispatch_job
      { enabled := false, use_bot_for_translations := false,
        group_languages := [], your_language := "en" }
      (fun t _ _ => t) 2
      { user_id := 9, message := "hola", is_group := true,
        chat_id := some 11, topic_id := none, target_language := some "es",
        sender_type := "user", message_category := "translation" }).1,
      s.identity = SenderIdentity.humanAccount :=
  (claim_C1_amended_routing
    { enabled := false, use_bot_for_translations := false,
      group_languages := [], your_language := "en" }
    (fun t _ _ => t) 2
    { user_id := 9, message := "hola", is_group := true,
      chat_id := some 11, topic_id := none, target_language := some "es",
      sender_type := "user", message_category := "translation" }).2 rfl (by decide)

/-- C10: a dequeued (sender=bot, category=translation) job that is not a
group message or carries no truthy chat id is discarded: the worker pass
transmits nothing under either identity, enqueues nothing, writes no
marker, and still deletes the job from the queue. -/
theorem claim_C10_bot_translation_discarded (cfg : TranslationSettings)
    (translate : String → String → String → String) (bot_msg_id : Int)
    (job : OutgoingJob) (rest : List OutgoingJob)
    (h1 : job.sender_type = "bot") (h2 : job.message_category = "translation")
    (h3 : job.is_group = false ∨ intOptTruthy job.chat_id = false) :
    outgoing_worker_step cfg translate bot_msg_id (job :: rest) =
      { queue := rest, sends := [], markers := [] } := by
  unfold outgoing_worker_step dispatch_job
  rcases h3 with h3 | h3 <;> simp_all

/-- Witness for C10 at a concrete input: a non-group bot translation job
is deleted without any transmission. -/
theorem claim_C10_witness :
    outgoing_worker_step
      { enabled := true, use_bot_for_translations := true,
        group_languages := ["en"], your_language := "en" }
      (fun t _ _ => t) 3
      [{ user_id := 4, message := "German:\nhallo", is_group := false,
         chat_id := none, topic_id := none, target_language := some "de",
         sender_type := "bot", message_category := "translation" }] =
      { queue := [], sends := [], markers := [] } :=
  claim_C10_bot_translation_discarded
    { enabled := true, use_bot_for_translations := true,
      group_languages := ["en"], your_language := "en" }
    (fun t _ _ => t) 3
    { user_id := 4, message := "German:\nhallo", is_group := false,
      chat_id := none, topic_id := none, target_language := some "de",
      sender_type := "bot", message_category := "translation" }
    [] rfl rfl (Or.inl rfl)


/-- Helper: deleting the matching elements from a list that contains
exactly one match shortens it by exactly one. -/
theorem filter_not_length_of_countP_one {α : Type} (l : List α) (p : α → Bool)
    (h : l.countP p = 1) :
    (l.filter (fun a => !(p a))).length + 1 = l.length := by
  induction l with
  | nil => simp at h
  | cons a t ih =>
    by_cases hp : p a = true
    · have h0 : t.countP p = 0 := by
        rw [List.countP_cons_of_pos p t hp] at h
        omega
      have ht : t.filter (fun x => !(p x)) = t := by
        rw [List.filter_eq_self]
        intro b hb
        have hb0 := List.countP_eq_zero.mp h0 b hb
        simp [Bool.not_eq_true] at hb0
        simp [hb0]
      rw [List.filter_cons_of_neg (by simp [hp]), ht]
      simp
    · have hp0 : p a = false := by
        simpa [Bool.not_eq_true] using hp
      have h1 : t.countP p = 1 := by
        rwa [List.countP_cons_of_neg p t (by simp [hp0])] at h
      have ih1 := ih h1
      rw [List.filter_cons_of_pos (by simp [hp0])]
      simp only [List.length_cons]
      omega

/-- Helper: deleting a token that occurs exactly once from the pending
table shortens it by exactly one row. -/
theorem pending_delete_length (l : List PendingApproval) (token : String)
    (h : l.countP (fun a => a.token == token) = 1) :
    (l.filter (fun a => a.token != token)).length + 1 = l.length := by
  have hf := filter_not_length_of_countP_one l (fun a => a.token == token) h
  simpa [bne] using hf

/-- C8: for a valid token (present exactly once): approve deletes the
pending row and appends exactly one outbound job with category=response
and sender=user, appending no Correction; edit-and-approve does the same
with the stripped edited text and additionally appends exactly one
Correction pairing the AI suggestion with the edit; skip only deletes
the pending row. -/
theorem claim_C8_approval_lifecycle (st : DashboardState) (token : String)
    (d : PendingApproval) (newText : String)
    (hfind : Dashboard.get_pending_approval st token = some d)
    (hcount : st.pending.countP (fun a => a.token == token) = 1)
    (hnew : ¬ pyStrip newText = "") :
    ((Dashboard.send_message st token).2 = true ∧
      (Dashboard.send_message st token).1.pending =
        st.pending.filter (fun a => a.token != token) ∧
      (Dashboard.send_message st token).1.pending.length + 1 = st.pending.length ∧
      (Dashboard.send_message st token).1.outgoing = st.outgoing ++
        [{ user_id := d.user_id, message := d.ai_suggestion,
           is_group := d.is_group,
           chat_id := if d.is_group then d.chat_id else none,
           topic_id := if d.is_group then d.topic_id else none,
           target_language := some (Dashboard.approval_target_lang d),
           sender_type := "user", message_category := "response" }] ∧
      (Dashboard.send_message st token).1.corrections = st.corrections) ∧
    ((Dashboard.edit_message st token newText).2 = true ∧
      (Dashboard.edit_message st token newText).1.pending =
        st.pending.filter (fun a => a.token != token) ∧
      (Dashboard.edit_message st token newText).1.pending.length + 1 =
        st.pending.length ∧
      (Dashboard.edit_message st token newText).1.outgoing = st.outgoing ++
        [{ user_id := d.user_id, message := pyStrip newText,
           is_group := d.is_group,
           chat_id := if d.is_group then d.chat_id else none,
           topic_id := if d.is_group then d.topic_id else none,
           target_language := some (Dashboard.approval_target_lang d),
           sender_type := "user", message_category := "response" }] ∧
      (Dashboard.edit_message st token newText).1.corrections =
        st.corrections ++
          [{ user_id := d.user_id, user_name := d.sender_name,
             incoming_message := d.incoming_msg,
             ai_suggestion := d.ai_suggestion,
             your_edit := pyStrip newText, language := d.language }]) ∧
    ((Dashboard.skip_message st token).2 = true ∧
      (Dashboard.skip_message st token).1.pending =
        st.pending.filter (fun a => a.token != token) ∧
      (Dashboard.skip_message st token).1.pending.length + 1 = st.pending.length ∧
      (Dashboard.skip_message st token).1.outgoing = st.outgoing ∧
      (Dashboard.skip_message st token).1.corrections = st.corrections) := by
  have hlen := pending_delete_length st.pending token hcount
  refine ⟨?_, ?_, ?_⟩
  · unfold Dashboard.send_message
    rw [hfind]
    by_cases hg : d.is_group = true <;>
      simp_all [Dashboard.queue_telegram_message, Dashboard.delete_pending_approval]
  · unfold Dashboard.edit_message
    rw [hfind]
    by_cases hg : d.is_group = true <;>
      simp_all [Dashboard.queue_telegram_message, Dashboard.delete_pending_approval,
        Dashboard.store_correction]
  · unfold Dashboard.skip_message
    rw [hfind]
    simp_all [Dashboard.delete_pending_approval]

/-- Witness for C8 at a concrete input: the sample store with one
pending approval, approved / edited / skipped under its token. -/
theorem claim_C8_witness :
    (Dashboard.send_message sampleDashboardState "tok1").2 = true ∧
    (Dashboard.send_message sampleDashboardState "tok1").1.corrections =
      sampleDashboardState.corrections ∧
    (Dashboard.edit_message sampleDashboardState "tok1" " Sure, 9am works. ").2 = true ∧
    (Dashboard.skip_message sampleDashboardState "tok1").2 = true ∧
    (Dashboard.skip_message sampleDashboardState "tok1").1.outgoing =
      sampleDashboardState.outgoing := by
  have h := claim_C8_approval_lifecycle sampleDashboardState "tok1" sampleApproval
    " Sure, 9am works. " (by decide) (by decide) (by decide)
  exact ⟨h.1.1, h.1.2.2.2.2, h.2.1.1, h.2.2.1, h.2.2.2.2.2.1⟩

/-- C2 (counterexample): in the DM auto-send scenario (auto-reply on,
acknowledgment, adjusted reply confidence 92, decision auto_send) the
handler enqueues zero outbound jobs — not exactly one response job —
and delivers the reply by a direct human-identity transmission instead
of through the queue. -/
theorem claim_C2_counterexample :
    autoSendScenarioResult.final_decision.action = "auto_send" ∧
    autoSendScenarioResult.reply.map (fun r => r.confidence) = some 92 ∧
    autoSendScenarioEffects.queued = [] ∧
    autoSendScenarioEffects.replySends =
      [{ identity := SenderIdentity.humanAccount, target := 42,
         text := "Thanks, noted!", reply_to := none }] := by
  decide

/-- C2 (amended): with auto-reply enabled, when the DM pipeline decides
auto_send the handler enqueues nothing in the outbound queue, creates no
approval and no notice, and transmits the reply as exactly one direct
send under the human identity to the sender. -/
theorem claim_C2_amended_direct_send (cfg : HandlerConfig)
    (translate : String → String → String → String)
    (info : IncomingInfo) (src_code src_name : String)
    (c : Classification) (ctx : List (String × Bool))
    (m : Option ModelReplyOutput) (token : String)
    (hdm : info.is_group = false)
    (hen : cfg.enable_auto_reply = true)
    (hauto : (GroupAwareMessageHandler.process_dm cfg.enable_auto_reply
      c ctx m).final_decision.action = "auto_send") :
    (handle_incoming_message_effects cfg translate info src_code src_name
      c ctx m token).queued = [] ∧
    (handle_incoming_message_effects cfg translate info src_code src_name
      c ctx m token).approvals = [] ∧
    (handle_incoming_message_effects cfg translate info src_code src_name
      c ctx m token).operatorNotices = 0 ∧
    (handle_incoming_message_effects cfg translate info src_code src_name
      c ctx m token).replySends.length = 1 ∧
    ∀ s ∈ (handle_incoming_message_effects cfg translate info src_code src_name
      c ctx m token).replySends,
      s.identity = SenderIdentity.humanAccount ∧ s.target = info.user_id := by
  rw [hen] at hauto
  unfold handle_incoming_message_effects
  simp [hdm, hen, hauto]

/-- Witness for the amended C2 at the concrete DM auto-send scenario. -/
theorem claim_C2_witness :
    autoSendScenarioEffects.queued = [] ∧
    autoSendScenarioEffects.approvals = [] ∧
    autoSendScenarioEffects.operatorNotices = 0 ∧
    autoSendScenarioEffects.replySends.length = 1 ∧
    ∀ s ∈ autoSendScenarioEffects.replySends,
      s.identity = SenderIdentity.humanAccount ∧ s.target = 42 := by
  have h := claim_C2_amended_direct_send
    { enable_auto_reply := true,
      translation :=
        { enabled := true, use_bot_for_translations := true,
          group_languages := ["en", "de"], your_language := "en" } }
    (fun t _ _ => t)
    { user_id := 42, sender_name := "Anna", text := "ok thanks",
      is_group := false, chat_id := none, topic_id := none,
      chat_title := "", topic_name := "" }
    "en" "English"
    { message_type := "acknowledgment", urgency := "low", confidence := 90 }
    [("project", true)]
    (some { reply := "Thanks, noted!", confidence := 92, action := "auto_send" })
    "tokC2" rfl rfl (by decide)
  exact h

/-- C9 (counterexample): with source language equal to the target
language and a non-empty text, `translate` consults the cache first and
a cache hit (written earlier from a different source language) is
returned verbatim — the result is not the identity and the cache is not
bypassed. -/
theorem claim_C9_counterexample :
    (OpenAITranslator.translate
      [{ original_text := "hello", source_lang := "en", target_lang := "de",
         translated_text := "hallo" }]
      (fun _ => "en") (fun t _ _ => t) "hello" "de" "de").1.translated_text
      = "hallo" ∧
    ("hallo" : String) ≠ "hello" ∧
    (OpenAITranslator.translate
      [{ original_text := "hello", source_lang := "en", target_lang := "de",
         translated_text := "hallo" }]
      (fun _ => "en") (fun t _ _ => t) "hello" "de" "de").2.1.cacheLookups = 1 := by
  decide

/-- C9 (amended): for non-empty text with source equal to target (and
not auto), `translate` performs exactly one cache lookup first; on a
cache miss it returns the text unchanged with zero external calls and
an unchanged cache, and on a cache hit it returns the cached translation
with zero external calls. -/
theorem claim_C9_amended_identity (cache : List TranslationCacheEntry)
    (detect_code : String → String)
    (model_translate : String → String → String → String)
    (text target source : String)
    (htext : ¬ pyStrip text = "") (heq : source = target)
    (hauto : ¬ source = "auto") :
    (OpenAITranslator.translate cache detect_code model_translate
      text target source).2.1.cacheLookups = 1 ∧
    (OpenAITranslator.get_from_cache cache text target = none →
      (OpenAITranslator.translate cache detect_code model_translate
        text target source).1.translated_text = text ∧
      (OpenAITranslator.translate cache detect_code model_translate
        text target source).2.1.externalCalls = 0 ∧
      (OpenAITranslator.translate cache detect_code model_translate
        text target source).2.2 = cache) ∧
    (∀ e, OpenAITranslator.get_from_cache cache text target = some e →
      (OpenAITranslator.translate cache detect_code model_translate
        text target source).1.translated_text = e.translated_text ∧
      (OpenAITranslator.translate cache detect_code model_translate
        text target source).2.1.externalCalls = 0) := by
  subst heq
  unfold OpenAITranslator.translate
  rcases hc : OpenAITranslator.get_from_cache cache text source with _ | e <;>
    simp_all

/-- Witness for the amended C9 at a concrete input: empty cache,
source = target = de, non-empty text. -/
theorem claim_C9_witness :
    (OpenAITranslator.translate [] (fun _ => "en") (fun t _ _ => t)
      "hello" "de" "de").2.1.cacheLookups = 1 ∧
    ((OpenAITranslator.translate [] (fun _ => "en") (fun t _ _ => t)
      "hello" "de" "de").1.translated_text = "hello" ∧
     (OpenAITranslator.translate [] (fun _ => "en") (fun t _ _ => t)
      "hello" "de" "de").2.1.externalCalls = 0 ∧
     (OpenAITranslator.translate [] (fun _ => "en") (fun t _ _ => t)
      "hello" "de" "de").2.2 = []) := by
  have h := claim_C9_amended_identity [] (fun _ => "en") (fun t _ _ => t)
    "hello" "de" "de" (by decide) rfl (by decide)
  exact ⟨h.1, h.2.1 rfl⟩

end TelegramBot
